import Mathlib

/-!
Verification of the project-storage-monitor core
(`ScriptTools/project-storage-monitor/project_storage_monitor.py`).

The Python core is embedded shallowly: dictionaries with optional keys
become structures with `Option` fields, byte counts become `ℕ`, quotas
become `ℤ` (a value `≤ 0` denotes an unlimited quota), and the float
percentage arithmetic is idealised over `ℚ`.  Printing is modelled by a
structured `ProjectReport` value holding exactly the data the printed
lines carry.  Python string repetition with a negative count yields the
empty string; this is modelled with `Int.toNat` truncation.
-/

namespace ProjectStorageMonitor

/-- A project record as consumed by the monitor: `project['project_key']`,
`project['display_name']`, `project['storage_quota_bytes']`. -/
structure Project where
  project_key : String
  display_name : String
  storage_quota_bytes : ℤ
deriving DecidableEq, Repr

/-- One entry of `storage_info['repositoriesSummaryList']`.  Every field is
read with `.get(...)` in the source, so each is optional here. -/
structure RepoRecord where
  repoKey : Option String
  projectKey : Option String
  repoType : Option String
  usedSpaceInBytes : Option ℕ
deriving DecidableEq, Repr

/-- The storage-info payload; the source reads
`storage_info.get('repositoriesSummaryList', [])`. -/
structure StorageInfo where
  repositoriesSummaryList : Option (List RepoRecord)
deriving DecidableEq, Repr

/-- The dictionary returned by `calculate_project_usage`. -/
structure UsageInfo where
  repositories : List RepoRecord
  total_used_bytes : ℕ
  repo_count : ℕ
deriving DecidableEq, Repr

/-- The filter condition of the list comprehension in
`calculate_project_usage` (line 95):
`repo.get('projectKey') == project_key and repo.get('repoKey') != 'TOTAL'`.
A missing `projectKey` compares unequal to the requested key and a missing
`repoKey` compares unequal to `'TOTAL'`, exactly as Python's `dict.get`
returning `None` does. -/
def repo_matches (project_key : String) (repo : RepoRecord) : Bool :=
  repo.projectKey == some project_key && repo.repoKey != some "TOTAL"

/-- `calculate_project_usage` (lines 90-105): filter the service-wide
repository summary list down to the project's repositories, sum their
`usedSpaceInBytes` (missing values default to 0) and count them. -/
def calculate_project_usage (project_key : String) (storage_info : StorageInfo) :
    UsageInfo :=
  let project_repos :=
    (storage_info.repositoriesSummaryList.getD []).filter (repo_matches project_key)
  { repositories := project_repos
    total_used_bytes := (project_repos.map (fun repo => repo.usedSpaceInBytes.getD 0)).sum
    repo_count := project_repos.length }

/-- Python's `int(...)` applied to a real value: truncation toward zero.
Only non-negative values reach it in this program, where it agrees with
the floor. -/
def py_int (q : ℚ) : ℤ :=
  if q < 0 then -⌊-q⌋ else ⌊q⌋

/-- Round a rational to the nearest integer, ties to the even integer:
the rounding Python's fixed-point string formatting performs on the
(here idealised as exact) value. -/
def round_half_even (q : ℚ) : ℤ :=
  let f := ⌊q⌋
  let r : ℚ := q - (f : ℚ)
  if r < 1/2 then f
  else if 1/2 < r then f + 1
  else if f % 2 = 0 then f else f + 1

/-- Python's `f"{v:.2f}"` on a non-negative value: the value rounded to
two decimal places, always printing exactly two fractional digits. -/
def format_two_dec (q : ℚ) : String :=
  let n : ℤ := round_half_even (q * 100)
  let ip : ℤ := n / 100
  let fp : ℕ := (n % 100).toNat
  toString ip ++ "." ++ (if fp < 10 then "0" ++ toString fp else toString fp)

/-- The `for unit in ['B', 'KB', 'MB', 'GB', 'TB']` loop of `format_size`
(lines 112-116): stop at the first unit where the value is below 1024,
otherwise divide by 1024 and move on; after the list is exhausted the
value is printed in `PB`. -/
def format_size_aux : List String → ℚ → String
  | [], bytes_size => format_two_dec bytes_size ++ " PB"
  | unit :: units, bytes_size =>
    if bytes_size < 1024 then format_two_dec bytes_size ++ " " ++ unit
    else format_size_aux units (bytes_size / 1024)

/-- `format_size` (lines 107-116): `0` prints as `"0 B"`, anything else
goes through the unit loop. -/
def format_size (bytes_size : ℕ) : String :=
  if bytes_size = 0 then "0 B"
  else format_size_aux ["B", "KB", "MB", "GB", "TB"] (bytes_size : ℚ)

/-- The full ascending unit ladder, `PB` terminal. -/
def unit_names : List String := ["B", "KB", "MB", "GB", "TB", "PB"]

/-- The spec's wording of the unit-selection rule: while the value is at
least 1024 and a larger unit remains (at most five divisions, since `PB`
is terminal), divide by 1024; return the final value and how many
divisions were taken. -/
def spec_divide : ℕ → ℚ → ℚ × ℕ
  | 0, v => (v, 0)
  | n + 1, v =>
    if 1024 ≤ v then
      let vk := spec_divide n (v / 1024)
      (vk.1, vk.2 + 1)
    else (v, 0)

/-- `format_size` as the spec words it: zero is `"0 B"`, otherwise divide
per `spec_divide` and print the value to two decimals with the unit the
division count selects. -/
def format_size_by_spec (bytes_size : ℕ) : String :=
  if bytes_size = 0 then "0 B"
  else
    let vk := spec_divide 5 (bytes_size : ℚ)
    format_two_dec vk.1 ++ " " ++ unit_names.getD vk.2 "PB"

/-- `get_project_name_color` (lines 118-125). -/
def get_project_name_color (usage_percent : ℚ) : String :=
  if usage_percent > 90 then "\x1b[1;31m"
  else if usage_percent > 80 then "\x1b[1;33m"
  else "\x1b[1;32m"

/-- The warning branch of `print_project_usage` (lines 196-200), evaluated
only when the quota is limited: the critical line above 90, the attention
line above 80, nothing otherwise. -/
def usage_warning (usage_percent : ℚ) : Option String :=
  if usage_percent > 90 then some "🔴 警告: 存储使用率超过90%! 请立即处理"
  else if usage_percent > 80 then some "🟡 注意: 存储使用率超过80%"
  else none

/-- `get_display_width` (lines 127-136): accumulate 2 for each character
in the CJK Unified Ideographs block `U+4E00`-`U+9FFF`, 1 for any other. -/
def get_display_width (text : String) : ℕ :=
  text.data.foldl
    (fun width char =>
      if '\u4e00' ≤ char ∧ char ≤ '\u9fff' then width + 2 else width + 1)
    0

/-- The display width one character contributes. -/
def char_display_width (char : Char) : ℕ :=
  if '\u4e00' ≤ char ∧ char ≤ '\u9fff' then 2 else 1

/-- A run of `n` ASCII spaces, Python's `' ' * n`. -/
def spaces (n : ℕ) : String :=
  String.mk (List.replicate n ' ')

/-- `pad_string` (lines 138-152): text already at or beyond the target
display width is returned unchanged; otherwise the missing width is made
up with spaces, appended for `'<'`, prepended for `'>'`, and split
floor-half left / remainder right for any other mode (`'^'`). -/
def pad_string (text : String) (width : ℕ) (align : Char) : String :=
  let current_width := get_display_width text
  if current_width ≥ width then text
  else
    let padding := width - current_width
    if align = '<' then text ++ spaces padding
    else if align = '>' then spaces padding ++ text
    else spaces (padding / 2) ++ text ++ spaces (padding - padding / 2)

/-- The bar of line 191-193: `int(30 * percent / 100)` cells of the filled
glyph, then `30 - filled` cells of the light glyph, Python's string
repetition clamping negative counts to the empty string. -/
def make_bar (usage_percent : ℚ) : String :=
  let bar_length : ℤ := 30
  let filled_length : ℤ := py_int ((bar_length : ℚ) * usage_percent / 100)
  String.mk (List.replicate filled_length.toNat '█') ++
    String.mk (List.replicate (bar_length - filled_length).toNat '░')

/-- The data printed by `print_project_usage` (lines 154-202), one field
per printed value: the ANSI color chosen for the name, the quota line,
the used-space line, the repository count, the percentage line (the
literal `"无限制"`, i.e. "unlimited", when the quota is not positive),
and the bar and warning lines that exist only for a limited quota. -/
structure ProjectReport where
  color_code : String
  project_name : String
  project_key : String
  quota_display : String
  used_display : String
  repo_count : ℕ
  percent_display : String
  bar : Option String
  warning : Option String
deriving DecidableEq, Repr

/-- `print_project_usage` (lines 154-202) as a pure report. -/
def print_project_usage (project : Project) (storage_info : StorageInfo) :
    ProjectReport :=
  let usage_info := calculate_project_usage project.project_key storage_info
  let total_used := usage_info.total_used_bytes
  let storage_quota := project.storage_quota_bytes
  let usage_percent : ℚ :=
    if storage_quota > 0 then ((total_used : ℚ) / (storage_quota : ℚ)) * 100 else 0
  let quota_display : String :=
    if storage_quota > 0 then format_size storage_quota.toNat else "无限制"
  { color_code := get_project_name_color usage_percent
    project_name := project.display_name
    project_key := project.project_key
    quota_display := quota_display
    used_display := format_size total_used
    repo_count := usage_info.repo_count
    percent_display :=
      if storage_quota > 0 then format_two_dec usage_percent ++ "%" else "无限制"
    bar := if storage_quota > 0 then some (make_bar usage_percent) else none
    warning := if storage_quota > 0 then usage_warning usage_percent else none }

/-- The match condition of the project-selection loop in `main`
(line 306): exact, case-sensitive string equality against the project key
or the display name. -/
def matches_selector (project_name : String) (project : Project) : Bool :=
  project.project_key == project_name || project.display_name == project_name

/-- The loop of lines 304-308: the first project matching the selector. -/
def find_target_project (project_name : String) (projects : List Project) :
    Option Project :=
  projects.find? (matches_selector project_name)

/-- The data of the not-found report of lines 313-314: the requested name
and every known project key. -/
structure NotFoundError where
  requested : String
  available : List String
deriving DecidableEq, Repr

/-- Lines 302-315: resolve the caller-supplied selector to a project, or
report the not-found error. -/
def resolve_project (project_name : String) (projects : List Project) :
    Except NotFoundError Project :=
  match find_target_project project_name projects with
  | some target_project => Except.ok target_project
  | none =>
    Except.error
      { requested := project_name
        available := projects.map Project.project_key }

/-! Concrete inputs used by witnesses, counterexamples and the spec's
end-to-end scenarios. -/

/-- The spec's end-to-end scenario project: key `proj1`, quota 1000. -/
def scenario_project : Project :=
  { project_key := "proj1", display_name := "proj1", storage_quota_bytes := 1000 }

/-- The scenario's real repository: 900 bytes used in `proj1`. -/
def scen_r1 : RepoRecord :=
  { repoKey := some "r1", projectKey := some "proj1", repoType := none,
    usedSpaceInBytes := some 900 }

/-- The scenario's pre-aggregated `TOTAL` sentinel row for `proj1`. -/
def scen_total : RepoRecord :=
  { repoKey := some "TOTAL", projectKey := some "proj1", repoType := none,
    usedSpaceInBytes := some 900 }

/-- The scenario's storage snapshot: one real repository plus the sentinel. -/
def scenario_storage : StorageInfo :=
  { repositoriesSummaryList := some [scen_r1, scen_total] }

/-- A project whose usage exceeds its quota: quota 100 bytes. -/
def over_project : Project :=
  { project_key := "p", display_name := "p", storage_quota_bytes := 100 }

/-- 200 bytes used against `over_project`'s 100-byte quota. -/
def over_r1 : RepoRecord :=
  { repoKey := some "r1", projectKey := some "p", repoType := none,
    usedSpaceInBytes := some 200 }

/-- The storage snapshot putting `over_project` at 200% usage. -/
def over_storage : StorageInfo :=
  { repositoriesSummaryList := some [over_r1] }

/-- The spec's unlimited-quota scenario project `p2` with quota 0. -/
def p2_project : Project :=
  { project_key := "p2", display_name := "项目二", storage_quota_bytes := 0 }

/-- A large used-space record for `p2`, showing the unlimited branch ignores
actual usage. -/
def p2_storage : StorageInfo :=
  { repositoriesSummaryList := some
      [{ repoKey := some "big", projectKey := some "p2", repoType := some "local",
         usedSpaceInBytes := some 123456789 }] }

/-! Helper lemmas. -/

/-- `calculate_project_usage` with its local binding unfolded. -/
theorem calculate_project_usage_eq (project_key : String) (storage_info : StorageInfo) :
    calculate_project_usage project_key storage_info =
      { repositories := (storage_info.repositoriesSummaryList.getD []).filter
          (repo_matches project_key)
        total_used_bytes := (((storage_info.repositoriesSummaryList.getD []).filter
          (repo_matches project_key)).map (fun repo => repo.usedSpaceInBytes.getD 0)).sum
        repo_count := ((storage_info.repositoriesSummaryList.getD []).filter
          (repo_matches project_key)).length } := rfl

/-- Summing `usedSpaceInBytes.getD 0` is summing the present values: a
missing value contributes exactly 0. -/
theorem sum_used_eq_filterMap (l : List RepoRecord) :
    (l.map (fun repo => repo.usedSpaceInBytes.getD 0)).sum =
      (l.filterMap RepoRecord.usedSpaceInBytes).sum := by
  induction l with
  | nil => rfl
  | cons r t ih =>
    cases h : r.usedSpaceInBytes <;>
      simp [List.filterMap_cons, h, ih]

/-- The accumulator form of the width loop equals a sum of per-character
widths. -/
theorem foldl_char_width (l : List Char) (n : ℕ) :
    l.foldl
      (fun width char =>
        if '一' ≤ char ∧ char ≤ '鿿' then width + 2 else width + 1) n =
      n + (l.map char_display_width).sum := by
  induction l generalizing n with
  | nil => simp
  | cons c t ih =>
    simp only [List.foldl_cons, List.map_cons, List.sum_cons, char_display_width]
    by_cases h : '一' ≤ c ∧ c ≤ '鿿'
    · rw [if_pos h, if_pos h, ih]
      omega
    · rw [if_neg h, if_neg h, ih]
      omega

/-- `get_display_width` is the sum of `char_display_width` over the
characters. -/
theorem get_display_width_eq_sum (text : String) :
    get_display_width text = (text.data.map char_display_width).sum := by
  rw [get_display_width, foldl_char_width]
  omega

/-- An ASCII character (code point below 128) has display width 1. -/
theorem char_width_ascii (c : Char) (h : c.toNat < 128) : char_display_width c = 1 := by
  rw [char_display_width, if_neg]
  rintro ⟨h1, -⟩
  rw [Char.le_def, UInt32.le_def, BitVec.le_def] at h1
  have h2 : ('一' : Char).val.toBitVec.toNat = 19968 := by decide
  have h3 : c.toNat = c.val.toBitVec.toNat := rfl
  omega

/-- A list of characters of width 2 each sums to twice its length. -/
theorem sum_width_all_two (l : List Char) (h : ∀ c ∈ l, char_display_width c = 2) :
    (l.map char_display_width).sum = 2 * l.length := by
  induction l with
  | nil => simp
  | cons c t ih =>
    simp only [List.map_cons, List.sum_cons, List.length_cons, h c (by simp)]
    rw [ih (fun x hx => h x (by simp [hx]))]
    omega

/-- A list of characters of width 1 each sums to its length. -/
theorem sum_width_all_one (l : List Char) (h : ∀ c ∈ l, char_display_width c = 1) :
    (l.map char_display_width).sum = l.length := by
  induction l with
  | nil => simp
  | cons c t ih =>
    simp only [List.map_cons, List.sum_cons, List.length_cons, h c (by simp)]
    rw [ih (fun x hx => h x (by simp [hx]))]
    omega

/-- Display width distributes over string concatenation. -/
theorem get_display_width_append (a b : String) :
    get_display_width (a ++ b) = get_display_width a + get_display_width b := by
  simp [get_display_width_eq_sum, String.data_append]

/-- A run of `n` spaces has display width `n`. -/
theorem get_display_width_spaces (n : ℕ) : get_display_width (spaces n) = n := by
  have hd : (spaces n).data = List.replicate n ' ' := rfl
  rw [get_display_width_eq_sum, hd]
  have hw : char_display_width ' ' = 1 := by decide
  rw [sum_width_all_one]
  · simp
  · intro c hc
    rw [List.eq_of_mem_replicate hc, hw]

/-- `List.find?` returns the first element satisfying the predicate: the
found element splits the list so that everything before it fails the
predicate. -/
theorem find_first_match {α : Type} (p : α → Bool) (l : List α) (a : α)
    (h : l.find? p = some a) :
    p a = true ∧ ∃ pre post, l = pre ++ a :: post ∧ ∀ x ∈ pre, p x = false := by
  induction l with
  | nil => simp at h
  | cons b t ih =>
    by_cases hb : p b
    · rw [List.find?_cons_of_pos _ hb] at h
      obtain rfl : b = a := by injection h
      exact ⟨hb, [], t, rfl, by simp⟩
    · rw [List.find?_cons_of_neg _ hb] at h
      obtain ⟨hp, pre, post, rfl, hpre⟩ := ih h
      refine ⟨hp, b :: pre, post, rfl, ?_⟩
      intro x hx
      rcases List.mem_cons.mp hx with rfl | hx
      · exact Bool.eq_false_iff.mpr hb
      · exact hpre x hx

/-- The unit loop of the source equals the spec's while-rule on any unit
list: the value is divided while at least 1024 and a unit beyond the
current one remains, and the printed unit is selected by the number of
divisions. -/
theorem format_size_aux_eq_spec (units : List String) (q : ℚ) :
    format_size_aux units q =
      format_two_dec (spec_divide units.length q).1 ++ " " ++
        (units ++ ["PB"]).getD (spec_divide units.length q).2 "PB" := by
  induction units generalizing q with
  | nil =>
    simp only [format_size_aux, spec_divide, List.nil_append]
    rw [String.append_assoc]
    rfl
  | cons u us ih =>
    simp only [format_size_aux, List.length_cons, spec_divide, List.cons_append]
    by_cases h : q < 1024
    · rw [if_pos h, if_neg (not_le.mpr h)]
      simp
    · rw [if_neg h, if_pos (not_lt.mp h)]
      simp only [ih]
      simp [List.getD_cons_succ]

/-- The source's `format_size` agrees with the spec-worded formatter on
every byte count. -/
theorem format_size_eq_spec (b : ℕ) : format_size b = format_size_by_spec b := by
  by_cases hb : b = 0
  · simp [hb, format_size, format_size_by_spec]
  · simp only [format_size, format_size_by_spec, if_neg hb]
    have h := format_size_aux_eq_spec ["B", "KB", "MB", "GB", "TB"] (b : ℚ)
    simpa [unit_names] using h

/-- Two-decimal formatting of 1023. -/
theorem format_two_dec_1023 : format_two_dec 1023 = "1023.00" := by
  rw [format_two_dec, round_half_even]
  norm_num
  rfl

/-- Two-decimal formatting of 1. -/
theorem format_two_dec_one : format_two_dec 1 = "1.00" := by
  rw [format_two_dec, round_half_even]
  norm_num
  rfl

/-- 1023 bytes stay in the `B` unit. -/
theorem format_size_1023 : format_size 1023 = "1023.00 B" := by
  rw [format_size, if_neg (by norm_num), format_size_aux, if_pos (by norm_num),
    show ((1023 : ℕ) : ℚ) = 1023 by norm_num, format_two_dec_1023]
  rfl

/-- 1024 bytes advance to `KB`. -/
theorem format_size_1024 : format_size 1024 = "1.00 KB" := by
  rw [format_size, if_neg (by norm_num), format_size_aux, if_neg (by norm_num),
    show ((1024 : ℕ) : ℚ) / 1024 = 1 by norm_num, format_size_aux,
    if_pos (by norm_num), format_two_dec_one]
  rfl

/-- 1024 * 1024 bytes advance to `MB`. -/
theorem format_size_1048576 : format_size (1024 * 1024) = "1.00 MB" := by
  rw [format_size, if_neg (by norm_num)]
  rw [format_size_aux, if_neg (by norm_num)]
  rw [show ((1024 * 1024 : ℕ) : ℚ) / 1024 = 1024 by norm_num]
  rw [format_size_aux, if_neg (by norm_num)]
  rw [show ((1024 : ℚ)) / 1024 = 1 by norm_num]
  rw [format_size_aux, if_pos (by norm_num), format_two_dec_one]
  rfl

/-- The scenario aggregation: the sentinel row is dropped, leaving one
repository and 900 bytes. -/
theorem scenario_usage :
    calculate_project_usage scenario_project.project_key scenario_storage =
      { repositories := [scen_r1], total_used_bytes := 900, repo_count := 1 } := by
  decide

/-- `int(30 * 90 / 100)` is 27. -/
theorem py_int_filled_90 : py_int ((30 : ℚ) * 90 / 100) = 27 := by
  rw [py_int, if_neg (by norm_num)]
  norm_num

/-- `int(30 * 200 / 100)` is 60. -/
theorem py_int_filled_200 : py_int ((30 : ℚ) * 200 / 100) = 60 := by
  rw [py_int, if_neg (by norm_num)]
  norm_num

/-- The renderer's bar for the over-quota input is the bar at 200%. -/
theorem over_storage_bar :
    (print_project_usage over_project over_storage).bar = some (make_bar 200) := by
  have hc : calculate_project_usage over_project.project_key over_storage =
      { repositories := [over_r1], total_used_bytes := 200, repo_count := 1 } := by
    decide
  simp only [print_project_usage, hc]
  norm_num [over_project]

/-- The renderer's bar for the 900-of-1000 scenario is the bar at 90%. -/
theorem scenario_storage_bar :
    (print_project_usage scenario_project scenario_storage).bar =
      some (make_bar 90) := by
  simp only [print_project_usage, scenario_usage]
  norm_num [scenario_project]

/-! The claims. -/

/-- Claim C1: a record enters a project's summary exactly when its
owning-project-key field equals the requested project key and its
repository key is not the literal `"TOTAL"`; in particular a record whose
repository key is `"TOTAL"` is excluded even when its project key
matches. -/
theorem calculate_project_usage_filter_rule (project_key : String)
    (storage_info : StorageInfo) (r : RepoRecord) :
    (r ∈ (calculate_project_usage project_key storage_info).repositories ↔
      r ∈ storage_info.repositoriesSummaryList.getD [] ∧
        r.projectKey = some project_key ∧ r.repoKey ≠ some "TOTAL") ∧
    (r.repoKey = some "TOTAL" →
      r ∉ (calculate_project_usage project_key storage_info).repositories) := by
  have key : r ∈ (calculate_project_usage project_key storage_info).repositories ↔
      r ∈ storage_info.repositoriesSummaryList.getD [] ∧
        r.projectKey = some project_key ∧ r.repoKey ≠ some "TOTAL" := by
    simp [calculate_project_usage, List.mem_filter, repo_matches, Bool.and_eq_true,
      beq_iff_eq, bne_iff_ne, and_assoc]
  exact ⟨key, fun hT hmem => ((key.mp hmem).2.2) hT⟩

/-- Claim C2: for a project whose quota is not positive, the report shows
the unlimited literal (`"无限制"`) for both the quota field and the
usage-percentage field — never a number — and emits neither a usage bar
nor a warning line; no percentage is computed from a division by the
quota. -/
theorem unlimited_quota_report (project : Project) (storage_info : StorageInfo)
    (h : project.storage_quota_bytes ≤ 0) :
    (print_project_usage project storage_info).quota_display = "无限制" ∧
    (print_project_usage project storage_info).percent_display = "无限制" ∧
    (print_project_usage project storage_info).bar = none ∧
    (print_project_usage project storage_info).warning = none := by
  have h' : ¬ project.storage_quota_bytes > 0 := not_lt.mpr h
  refine ⟨?_, ?_, ?_, ?_⟩ <;> simp [print_project_usage, h']

/-- Witness for C2: the quota-0 project `p2` with a non-empty storage
snapshot renders the unlimited literals and neither bar nor warning. -/
theorem unlimited_quota_report_witness :
    p2_project.storage_quota_bytes ≤ 0 ∧
    (print_project_usage p2_project p2_storage).quota_display = "无限制" ∧
    (print_project_usage p2_project p2_storage).percent_display = "无限制" ∧
    (print_project_usage p2_project p2_storage).bar = none ∧
    (print_project_usage p2_project p2_storage).warning = none :=
  ⟨by decide, unlimited_quota_report p2_project p2_storage (by decide)⟩

/-- Claim C3: threshold classification is by strict comparison: above 90
the danger color and the critical warning line, above 80 and at most 90
the warning color and the attention line, at most 80 the normal color and
no warning line; exactly 80 is normal and exactly 90 is warning, and the
same percentage drives the color and the warning text through the same
boundaries. -/
theorem threshold_classification_rule (p : ℚ) :
    (90 < p → get_project_name_color p = "\x1b[1;31m" ∧
      usage_warning p = some "🔴 警告: 存储使用率超过90%! 请立即处理") ∧
    (80 < p ∧ p ≤ 90 → get_project_name_color p = "\x1b[1;33m" ∧
      usage_warning p = some "🟡 注意: 存储使用率超过80%") ∧
    (p ≤ 80 → get_project_name_color p = "\x1b[1;32m" ∧ usage_warning p = none) ∧
    get_project_name_color 80 = "\x1b[1;32m" ∧ usage_warning 80 = none ∧
    get_project_name_color 90 = "\x1b[1;33m" ∧
    usage_warning 90 = some "🟡 注意: 存储使用率超过80%" := by
  refine ⟨fun h => ?_, fun h => ?_, fun h => ?_, ?_, ?_, ?_, ?_⟩
  · constructor <;> simp [get_project_name_color, usage_warning, h]
  · have h90 : ¬ (90 : ℚ) < p := not_lt.mpr h.2
    constructor <;> simp [get_project_name_color, usage_warning, h.1, h90]
  · have h80 : ¬ (80 : ℚ) < p := not_lt.mpr h
    have h90 : ¬ (90 : ℚ) < p := not_lt.mpr (h.trans (by norm_num))
    constructor <;> simp [get_project_name_color, usage_warning, h80, h90]
  · norm_num [get_project_name_color]
  · norm_num [usage_warning]
  · norm_num [get_project_name_color]
  · norm_num [usage_warning]

/-- Claim C4: `format_size` maps 0 to exactly `"0 B"`, formats every other
byte count to two decimal places with the unit the spec's divide-while
rule selects (units `B, KB, MB, GB, TB`, with `PB` terminal), and in
particular maps 1023 to `"1023.00 B"`, 1024 to `"1.00 KB"` and
`1024 * 1024` to `"1.00 MB"`. -/
theorem format_size_rule :
    format_size 0 = "0 B" ∧
    (∀ b : ℕ, format_size b = format_size_by_spec b) ∧
    format_size 1023 = "1023.00 B" ∧
    format_size 1024 = "1.00 KB" ∧
    format_size (1024 * 1024) = "1.00 MB" :=
  ⟨rfl, format_size_eq_spec, format_size_1023, format_size_1024, format_size_1048576⟩

/-- Claim C5 counterexample: at 200% usage — produced by the renderer for
200 bytes used against a 100-byte quota — the bar has 60 cells, not 30:
Python's `'░' * (30 - 60)` is empty and `'█' * 60` is not truncated. -/
theorem usage_bar_counterexample :
    (print_project_usage over_project over_storage).bar = some (make_bar 200) ∧
    (make_bar 200).length = 60 ∧ ¬ (make_bar 200).length = 30 := by
  refine ⟨over_storage_bar, ?_, ?_⟩ <;>
    simp [make_bar, String.length, py_int_filled_200]

/-- Claim C5 (amended): for every non-negative usage percentage the bar
has `max 30 (int (30 * percent / 100))` cells, of which the first
`int (30 * percent / 100)` are the filled glyph and the remaining
`30 - filled` the light glyph — so exactly 30 cells whenever the
percentage is at most 100, while a percentage above 100 yields an
all-filled bar longer than 30 cells; in the 900-of-1000 scenario the
renderer's bar is the 90% bar with 27 of its 30 cells filled. -/
theorem usage_bar_cells (p : ℚ) (hp : 0 ≤ p) :
    ((make_bar p).length = max 30 (py_int (30 * p / 100)).toNat ∧
     (p ≤ 100 → (make_bar p).length = 30) ∧
     (make_bar p).data.count '█' = (py_int (30 * p / 100)).toNat ∧
     (make_bar p).data.count '░' = 30 - (py_int (30 * p / 100)).toNat) ∧
    ((print_project_usage scenario_project scenario_storage).bar =
      some (make_bar 90) ∧
     (make_bar 90).data.count '█' = 27 ∧ (make_bar 90).data.count '░' = 3) := by
  have harg : 0 ≤ (30 : ℚ) * p / 100 := by positivity
  have hpy : py_int (30 * p / 100) = ⌊(30 : ℚ) * p / 100⌋ := by
    rw [py_int, if_neg (not_lt.mpr harg)]
  have hf0 : 0 ≤ ⌊(30 : ℚ) * p / 100⌋ := Int.floor_nonneg.mpr harg
  have hdata : (make_bar p).data =
      List.replicate (py_int ((30 : ℚ) * p / 100)).toNat '█' ++
        List.replicate ((30 - py_int ((30 : ℚ) * p / 100)).toNat) '░' := by
    simp [make_bar, String.data_append]
  have hlen : (make_bar p).length =
      (py_int ((30 : ℚ) * p / 100)).toNat +
        (30 - py_int ((30 : ℚ) * p / 100)).toNat := by
    have hl : (make_bar p).length = (make_bar p).data.length := rfl
    rw [hl, hdata]
    simp
  refine ⟨⟨?_, fun hple => ?_, ?_, ?_⟩, scenario_storage_bar, ?_, ?_⟩
  · rw [hlen, hpy]
    omega
  · have hle : ⌊(30 : ℚ) * p / 100⌋ ≤ 30 := by
      have hq : (30 : ℚ) * p / 100 ≤ 30 := by
        rw [div_le_iff₀ (by norm_num : (0 : ℚ) < 100)]
        nlinarith
      calc ⌊(30 : ℚ) * p / 100⌋ ≤ ⌊(30 : ℚ)⌋ := Int.floor_le_floor hq
        _ = 30 := by norm_num
    rw [hlen, hpy]
    omega
  · rw [hdata]
    simp [List.count_append, List.count_replicate]
  · rw [hdata, hpy]
    simp [List.count_append, List.count_replicate]
    omega
  · have hd : (make_bar 90).data =
        List.replicate (py_int ((30 : ℚ) * 90 / 100)).toNat '█' ++
          List.replicate ((30 - py_int ((30 : ℚ) * 90 / 100)).toNat) '░' := by
      simp [make_bar, String.data_append]
    rw [hd, py_int_filled_90]
    simp [List.count_append, List.count_replicate]
  · have hd : (make_bar 90).data =
        List.replicate (py_int ((30 : ℚ) * 90 / 100)).toNat '█' ++
          List.replicate ((30 - py_int ((30 : ℚ) * 90 / 100)).toNat) '░' := by
      simp [make_bar, String.data_append]
    rw [hd, py_int_filled_90]
    simp [List.count_append, List.count_replicate]

/-- Witness for C5 (amended): at 90% the bar has exactly 30 cells, 27 of
them filled, and it is the bar the renderer emits for the scenario. -/
theorem usage_bar_cells_witness :
    ((make_bar 90).length = 30 ∧
     (print_project_usage scenario_project scenario_storage).bar =
       some (make_bar 90) ∧
     (make_bar 90).data.count '█' = 27 ∧ (make_bar 90).data.count '░' = 3) := by
  have h := usage_bar_cells 90 (by norm_num)
  exact ⟨h.1.2.1 (by norm_num), h.2⟩

/-- Claim C6: display width sums, over the characters, 2 for a character
in `U+4E00`-`U+9FFF` and 1 for any other; an all-CJK string has width
twice its character count, a pure-ASCII string width equal to its
character count. -/
theorem display_width_rule (s : String) :
    get_display_width s = (s.data.map char_display_width).sum ∧
    ((∀ c ∈ s.data, '一' ≤ c ∧ c ≤ '鿿') → get_display_width s = 2 * s.length) ∧
    ((∀ c ∈ s.data, c.toNat < 128) → get_display_width s = s.length) := by
  refine ⟨get_display_width_eq_sum s, fun h => ?_, fun h => ?_⟩
  · rw [get_display_width_eq_sum, sum_width_all_two]
    · rfl
    · intro c hc
      rw [char_display_width, if_pos (h c hc)]
  · rw [get_display_width_eq_sum, sum_width_all_one]
    · rfl
    · intro c hc
      exact char_width_ascii c (h c hc)

/-- Claim C7: padding never truncates — text at or beyond the target
display width is returned unchanged — and otherwise adds exactly the
missing display width in spaces (appended for left, prepended for right,
split floor-half left and remainder right for center), so the padded left
alignment has display width `max width (displayWidth text)`. -/
theorem pad_string_rule (text : String) (width : ℕ) (align : Char) :
    (width ≤ get_display_width text → pad_string text width align = text) ∧
    (get_display_width text < width →
      pad_string text width '<' = text ++ spaces (width - get_display_width text) ∧
      pad_string text width '>' = spaces (width - get_display_width text) ++ text ∧
      pad_string text width '^' =
        spaces ((width - get_display_width text) / 2) ++ text ++
          spaces ((width - get_display_width text) -
            (width - get_display_width text) / 2)) ∧
    get_display_width (pad_string text width '<') =
      max width (get_display_width text) := by
  refine ⟨fun h => ?_, fun h => ?_, ?_⟩
  · rw [pad_string, if_pos h]
  · have h' : ¬ get_display_width text ≥ width := not_le.mpr h
    refine ⟨?_, ?_, ?_⟩
    · rw [pad_string, if_neg h', if_pos rfl]
    · rw [pad_string, if_neg h', if_neg (by decide), if_pos rfl]
    · rw [pad_string, if_neg h', if_neg (by decide), if_neg (by decide)]
  · by_cases h : get_display_width text ≥ width
    · rw [pad_string, if_pos h]
      omega
    · rw [pad_string, if_neg h, if_pos rfl, get_display_width_append,
        get_display_width_spaces]
      omega

/-- Claim C8: a supplied project selector resolves by case-sensitive exact
equality against the project key or the display name, the first match in
list order winning; when nothing matches, the result is a not-found error
carrying the requested name and the full list of known project keys, and
indeed no project matched exactly. -/
theorem resolve_project_rule (project_name : String) (projects : List Project) :
    (∀ target, resolve_project project_name projects = Except.ok target →
      (target.project_key = project_name ∨ target.display_name = project_name) ∧
      ∃ pre post, projects = pre ++ target :: post ∧
        ∀ q ∈ pre, q.project_key ≠ project_name ∧ q.display_name ≠ project_name) ∧
    (∀ e, resolve_project project_name projects = Except.error e →
      e.requested = project_name ∧
      e.available = projects.map Project.project_key ∧
      ∀ q ∈ projects, q.project_key ≠ project_name ∧
        q.display_name ≠ project_name) := by
  constructor
  · intro target h
    rw [resolve_project] at h
    cases hf : find_target_project project_name projects with
    | none => rw [hf] at h; exact absurd h (by simp)
    | some q =>
      rw [hf] at h
      obtain rfl : q = target := by injection h
      obtain ⟨hp, pre, post, heq, hpre⟩ := find_first_match _ _ _ hf
      refine ⟨?_, pre, post, heq, ?_⟩
      · simpa [matches_selector] using hp
      · intro x hx
        have hx' := hpre x hx
        simpa [matches_selector] using hx'
  · intro e h
    rw [resolve_project] at h
    cases hf : find_target_project project_name projects with
    | some q => rw [hf] at h; exact absurd h (by simp)
    | none =>
      rw [hf] at h
      have h2 : Except.error (α := Project)
          (NotFoundError.mk project_name (projects.map Project.project_key)) =
          Except.error e := h
      obtain rfl :
          e = NotFoundError.mk project_name (projects.map Project.project_key) := by
        injection h2 with h3
        exact h3.symm
      refine ⟨rfl, rfl, ?_⟩
      intro x hx
      have hx' := List.find?_eq_none.mp hf x hx
      simpa [matches_selector] using hx'

/-- Claim C9: `calculate_project_usage` never fails: whenever the filtered
set is empty — in particular when the whole storage record list is
empty — it returns zero total bytes and zero repositories, and a record's
missing used-space value contributes 0 (the total is the sum of only the
present values). -/
theorem calculate_project_usage_error_free (project_key : String)
    (storage_info : StorageInfo) :
    ((calculate_project_usage project_key storage_info).repositories = [] →
      (calculate_project_usage project_key storage_info).total_used_bytes = 0 ∧
      (calculate_project_usage project_key storage_info).repo_count = 0) ∧
    (storage_info.repositoriesSummaryList.getD [] = [] →
      (calculate_project_usage project_key storage_info).repositories = [] ∧
      (calculate_project_usage project_key storage_info).total_used_bytes = 0 ∧
      (calculate_project_usage project_key storage_info).repo_count = 0) ∧
    (calculate_project_usage project_key storage_info).total_used_bytes =
      ((calculate_project_usage project_key storage_info).repositories.filterMap
        RepoRecord.usedSpaceInBytes).sum := by
  refine ⟨fun h => ?_, fun h => ?_, ?_⟩
  · rw [calculate_project_usage_eq] at h ⊢
    simp only at h ⊢
    simp [h]
  · rw [calculate_project_usage_eq]
    simp [h]
  · rw [calculate_project_usage_eq]
    exact sum_used_eq_filterMap _

/-- Claim C10: a project with a non-positive quota is always rendered with
the normal-tier green color, whatever its actual usage, because the
percentage handed to the color selector is fixed at 0 in the unlimited
branch. -/
theorem unlimited_quota_color (project : Project) (storage_info : StorageInfo)
    (h : project.storage_quota_bytes ≤ 0) :
    (print_project_usage project storage_info).color_code =
      get_project_name_color 0 ∧
    (print_project_usage project storage_info).color_code = "\x1b[1;32m" := by
  have h' : ¬ project.storage_quota_bytes > 0 := not_lt.mpr h
  refine ⟨by simp [print_project_usage, h'], ?_⟩
  norm_num [print_project_usage, h', get_project_name_color]

/-- Witness for C10: project `p2` with quota 0 and over a hundred
megabytes in use is still rendered green. -/
theorem unlimited_quota_color_witness :
    p2_project.storage_quota_bytes ≤ 0 ∧
    (calculate_project_usage p2_project.project_key p2_storage).total_used_bytes =
      123456789 ∧
    (print_project_usage p2_project p2_storage).color_code = "\x1b[1;32m" :=
  ⟨by decide, by decide, (unlimited_quota_color p2_project p2_storage (by decide)).2⟩

end ProjectStorageMonitor
